import Mathlib

/-!
A shallow embedding of the `vacuum-launcher` daemon core (Rust) in Lean 4:
the aggregate state store (`src/state.rs`), the collectors whose arithmetic
matters to the specification (`src/collectors.rs`), the weather client
(`src/weather.rs`), the action layer (`src/actions.rs`) and the daemon's
update loops, IPC connection handler, command validator/dispatcher and
startup sequence (`src/daemon.rs`).

Modelling conventions:
* Rust machine integers (`u8`, `u32`, `u64`) become `Nat`; where a Rust
  `parse::<uN>` can reject an out-of-range literal the bound `2^N` is kept
  explicit.
* Rust `f64`/`f32` values become `Rat` (all arithmetic performed on them by
  this program — subtraction of byte counters and division by `1024` — is
  exact in `f64` for realistic magnitudes, and none of the claims depends on
  rounding).
* Fallible Rust functions (`Result<T>`) become `Except String T` or take an
  `Option` argument standing for the outcome of the external probe.
* External effects (file reads, executed commands, HTTP fetches) are passed
  in as explicit arguments or oracle functions: a collector that reads
  `/proc/net/dev` receives the (possibly failed) file contents, the action
  layer receives an `ExecEnv` oracle mapping an invoked command line to its
  outcome.
* `HashMap` private collector state becomes an association list with
  replace-on-insert semantics.
-/

namespace Vacuum

/-! String primitives are modelled over the character list of the string
(`String.toList`), so that every definition evaluates by kernel reduction on
concrete inputs; each is the direct analogue of the `str` method the source
calls. -/

/-- Rust `str::is_empty`. -/
def str_isEmpty (s : String) : Bool :=
  s.toList.isEmpty

/-- Rust `str::starts_with(pat)` for a literal pattern. -/
def starts_with (s pat : String) : Bool :=
  pat.toList.isPrefixOf s.toList

/-- Rust `str::ends_with(pat)` for a literal pattern. -/
def ends_with (s pat : String) : Bool :=
  pat.toList.isSuffixOf s.toList

/-- Rust `str::trim`: strip leading and trailing whitespace. -/
def str_trim (s : String) : String :=
  ((((s.toList.dropWhile Char.isWhitespace).reverse).dropWhile Char.isWhitespace).reverse).asString

/-- Does `pat` occur as a contiguous run of `l`? -/
def infixAux (pat : List Char) : List Char → Bool
  | [] => pat.isEmpty
  | c :: cs => pat.isPrefixOf (c :: cs) || infixAux pat cs

/-- Rust `str::contains(pat)` for a literal pattern. -/
def containsSubstr (s pat : String) : Bool :=
  infixAux pat.toList s.toList

/-- Split on a separator character, keeping empty pieces (the behaviour of
Rust `str::lines` for `\n`-separated content, up to a trailing empty piece
that matches no pattern below). -/
def splitCharAux (sep : Char) : List Char → List Char → List String
  | [], acc => [acc.reverse.asString]
  | c :: cs, acc =>
    if c = sep then acc.reverse.asString :: splitCharAux sep cs []
    else splitCharAux sep cs (c :: acc)

/-- Split a string into its `\n`-separated lines. -/
def split_lines (s : String) : List String :=
  splitCharAux '\n' s.toList []

/-- Split on whitespace before dropping empty pieces. -/
def splitWsAux : List Char → List Char → List String
  | [], acc => [acc.reverse.asString]
  | c :: cs, acc =>
    if c.isWhitespace then acc.reverse.asString :: splitWsAux cs []
    else splitWsAux cs (c :: acc)

/-- Rust `str::split_whitespace`: split on whitespace, dropping empty pieces. -/
def splitWhitespace (s : String) : List String :=
  (splitWsAux s.toList []).filter (fun p => !str_isEmpty p)

/-- Decimal digit parse accumulator: `none` on any non-digit. -/
def parseDigitsAux : Nat → List Char → Option Nat
  | acc, [] => some acc
  | acc, c :: cs =>
    if c.isDigit then parseDigitsAux (acc * 10 + (c.toNat - 48)) cs else none

/-- Parse an all-digit decimal string (`none` when empty or non-numeric),
the common core of Rust's unsigned `str::parse`. -/
def str_toNat (s : String) : Option Nat :=
  match s.toList with
  | [] => none
  | l => parseDigitsAux 0 l

/-- Rust `str::parse::<u64>()` as an `Option`: digits only, value below `2^64`. -/
def parse_u64 (s : String) : Option Nat :=
  match str_toNat s with
  | some n => if n < 2 ^ 64 then some n else none
  | none => none

/-- Rust `str::parse::<u8>()` as an `Option`: digits only, value below `2^8`. -/
def parse_u8 (s : String) : Option Nat :=
  match str_toNat s with
  | some n => if n < 2 ^ 8 then some n else none
  | none => none

/-- Rust `str::trim_end_matches('%')`: drop every trailing `%`. -/
def trim_end_matches_percent (s : String) : String :=
  ((s.toList.reverse.dropWhile (fun c => c = '%')).reverse).asString

/-- Rust `f64::round`: round half away from zero. -/
def rustRound (x : ℚ) : ℤ :=
  if 0 ≤ x then ⌊x + 1 / 2⌋ else -⌊-x + 1 / 2⌋

/-- `HashMap::get` on the association-list model (first binding wins). -/
def lookupStat : List (String × Nat × Nat) → String → Option (Nat × Nat)
  | [], _ => none
  | (k, v) :: rest, key => if k = key then some v else lookupStat rest key

/-- `HashMap::insert` on the association-list model: replace the existing
binding for the key, or append a new one. -/
def insertStat : List (String × Nat × Nat) → String → Nat × Nat → List (String × Nat × Nat)
  | [], key, v => [(key, v)]
  | (k, w) :: rest, key, v =>
    if k = key then (k, v) :: rest else (k, w) :: insertStat rest key v

/-! ## Data model (`src/state.rs`) -/

/-- `state.rs`: `UserInfo`. -/
structure UserInfo where
  username : String
  display_name : Option String
  email : String
  github_url : String
  avatar_path : Option String
deriving Repr, DecidableEq

/-- `state.rs`: `SystemInfo`. -/
structure SystemInfo where
  os_name : String
  hostname : String
  cpu_model : String
  cpu_cores : Nat
  cpu_freq_ghz : ℚ
  cpu_load_percent : ℚ
  ram_used_bytes : Nat
  ram_total_bytes : Nat
  gpu_vendor : String
  gpu_model : String
  gpu_vram_used_bytes : Nat
  gpu_vram_total_bytes : Nat
deriving Repr, DecidableEq

/-- `state.rs`: `DiskInfo`. -/
structure DiskInfo where
  device : String
  mountpoint : String
  fs_type : String
  used_bytes : Nat
  total_bytes : Nat
deriving Repr, DecidableEq

/-- `state.rs`: `NetworkStatus`. -/
structure NetworkStatus where
  interface : String
  ip_address : String
  ssid : Option String
  link_state : String
deriving Repr, DecidableEq

/-- `state.rs`: `NetworkTraffic`. -/
structure NetworkTraffic where
  interface : String
  rx_kbps : ℚ
  tx_kbps : ℚ
deriving Repr, DecidableEq

/-- `state.rs`: `AudioStatus`. -/
structure AudioStatus where
  source_name : String
  track_title : String
  artist : String
  playing : Bool
deriving Repr, DecidableEq

/-- `state.rs`: `VolumeState`. -/
structure VolumeState where
  level_percent : Nat
  muted : Bool
deriving Repr, DecidableEq

/-- `state.rs`: `WeatherInfo`. -/
structure WeatherInfo where
  location_display : String
  temperature_c : ℤ
  condition : String
  icon_name : Option String
deriving Repr, DecidableEq

/-- `state.rs`: `LinkButton`. -/
structure LinkButton where
  label : String
  url : String
  icon_name : String
deriving Repr, DecidableEq

/-- `state.rs`: `LauncherShortcuts`. -/
structure LauncherShortcuts where
  left_links : List LinkButton
  rofi_command : String
deriving Repr, DecidableEq

/-- `state.rs`: `Toggles`. -/
structure Toggles where
  wifi_enabled : Bool
  vpn_connected : Bool
  bluetooth_enabled : Bool
deriving Repr, DecidableEq

/-- `cava.rs`: `AudioVisualizerData` (`f32` bands as `Rat`). -/
structure AudioVisualizerData where
  frequency_bands : List ℚ
  sample_rate : Nat
  band_count : Nat
deriving Repr, DecidableEq

/-- `state.rs`: `VacuumState`, the aggregate record held by the Store.
Note that it declares exactly these ten sub-records; in particular it has no
`audio_visualizer` field. -/
structure VacuumState where
  user_info : UserInfo
  system_info : SystemInfo
  storage_info : List DiskInfo
  network_status : NetworkStatus
  network_traffic : NetworkTraffic
  audio_status : AudioStatus
  volume_state : VolumeState
  weather_info : WeatherInfo
  launcher_shortcuts : LauncherShortcuts
  toggles : Toggles
deriving Repr, DecidableEq

/-- `state.rs`: `impl Default for UserInfo`. -/
def UserInfo.default : UserInfo :=
  { username := "user"
    display_name := none
    email := "user@example.com"
    github_url := "https://github.com"
    avatar_path := none }

/-- `state.rs`: `impl Default for SystemInfo`. -/
def SystemInfo.default : SystemInfo :=
  { os_name := "Loading..."
    hostname := "Loading..."
    cpu_model := "Loading..."
    cpu_cores := 0
    cpu_freq_ghz := 0
    cpu_load_percent := 0
    ram_used_bytes := 0
    ram_total_bytes := 0
    gpu_vendor := "Loading..."
    gpu_model := "Loading..."
    gpu_vram_used_bytes := 0
    gpu_vram_total_bytes := 0 }

/-- `state.rs`: `impl Default for NetworkStatus`. -/
def NetworkStatus.default : NetworkStatus :=
  { interface := "Loading..."
    ip_address := "0.0.0.0"
    ssid := none
    link_state := "disconnected" }

/-- `state.rs`: `impl Default for NetworkTraffic`. -/
def NetworkTraffic.default : NetworkTraffic :=
  { interface := ""
    rx_kbps := 0
    tx_kbps := 0 }

/-- `state.rs`: `impl Default for AudioStatus`. -/
def AudioStatus.default : AudioStatus :=
  { source_name := "No source"
    track_title := "Unknown"
    artist := "Unknown"
    playing := false }

/-- `state.rs`: `impl Default for VolumeState`. -/
def VolumeState.default : VolumeState :=
  { level_percent := 50
    muted := false }

/-- `state.rs`: `impl Default for WeatherInfo`. -/
def WeatherInfo.default : WeatherInfo :=
  { location_display := "Loading..."
    temperature_c := 0
    condition := "Unknown"
    icon_name := none }

/-- `state.rs`: `impl Default for LauncherShortcuts`. -/
def LauncherShortcuts.default : LauncherShortcuts :=
  { left_links :=
      [ { label := "GitHub", url := "https://github.com", icon_name := "github" }
      , { label := "Mail", url := "https://protonmail.com", icon_name := "mail" }
      , { label := "OSV", url := "https://onyxdigital.dev/OnyxOSV", icon_name := "osv" } ]
    rofi_command := "rofi -show drun" }

/-- `state.rs`: `impl Default for Toggles`. -/
def Toggles.default : Toggles :=
  { wifi_enabled := false
    vpn_connected := false
    bluetooth_enabled := false }

/-- `state.rs`: `impl Default for VacuumState`. -/
def VacuumState.default : VacuumState :=
  { user_info := UserInfo.default
    system_info := SystemInfo.default
    storage_info := []
    network_status := NetworkStatus.default
    network_traffic := NetworkTraffic.default
    audio_status := AudioStatus.default
    volume_state := VolumeState.default
    weather_info := WeatherInfo.default
    launcher_shortcuts := LauncherShortcuts.default
    toggles := Toggles.default }

/-! ## Configuration (`src/config.rs`) -/

/-- `config.rs`: `UserConfig`. -/
structure UserConfig where
  display_name : Option String
  email : String
  github_url : String
deriving Repr, DecidableEq

/-- `config.rs`: `WeatherConfig`. -/
structure WeatherConfig where
  location : String
  api_key : Option String
  provider : String
  update_interval_minutes : Nat
deriving Repr, DecidableEq

/-- `config.rs`: `LinkConfig`. -/
structure LinkConfig where
  label : String
  url : String
  icon_name : String
deriving Repr, DecidableEq

/-- `config.rs`: `ShortcutsConfig`. -/
structure ShortcutsConfig where
  left_links : List LinkConfig
  rofi_command : String
  browser_command : String
deriving Repr, DecidableEq

/-- `config.rs`: `NetworkConfig`. -/
structure NetworkConfig where
  monitor_interface : Option String
  vpn_name : Option String
deriving Repr, DecidableEq

/-- `config.rs`: `HotkeyConfig`. -/
structure HotkeyConfig where
  toggle_overlay : String
deriving Repr, DecidableEq

/-- `config.rs`: `Config`. -/
structure Config where
  user : UserConfig
  weather : WeatherConfig
  shortcuts : ShortcutsConfig
  network : NetworkConfig
  hotkey : HotkeyConfig
deriving Repr, DecidableEq

/-- `config.rs`: `impl Default for Config`. -/
def Config.default : Config :=
  { user :=
      { display_name := none
        email := "user@example.com"
        github_url := "https://github.com" }
    weather :=
      { location := "Seattle, WA"
        api_key := none
        provider := "stub"
        update_interval_minutes := 15 }
    shortcuts :=
      { left_links :=
          [ { label := "GitHub", url := "https://github.com", icon_name := "github" }
          , { label := "Mail", url := "https://protonmail.com", icon_name := "mail" }
          , { label := "OSV", url := "https://onyxdigital.dev/OnyxOSV", icon_name := "osv" } ]
        rofi_command := "rofi -show drun"
        browser_command := "firefox" }
    network :=
      { monitor_interface := none
        vpn_name := none }
    hotkey := { toggle_overlay := "Super+Shift+Space" } }

/-! ## Collectors (`src/collectors.rs`)

Only the two collectors whose internal computation the claims depend on are
modelled in full: `collect_volume_state` (pactl output parsing, C10) and
`collect_network_traffic` (per-interface rate deltas, C3).  The remaining
collectors are pure OS probes ("produce a value or fail"); the update loops
below receive their outcomes as `Option`/`Except` arguments. -/

/-- The inner `for part in line.split_whitespace()` loop of
`collect_volume_state` (`collectors.rs:312-319`): the first part ending in
`%` whose `parse::<u8>` succeeds yields `volume.min(100)` and breaks; parts
that fail to parse are skipped. -/
def scan_volume_parts : List String → Option Nat
  | [] => none
  | part :: rest =>
    if ends_with part "%" then
      match parse_u8 (trim_end_matches_percent part) with
      | some volume => some (min volume 100)
      | none => scan_volume_parts rest
    else scan_volume_parts rest

/-- `collectors.rs:301-336`: `SystemCollector::collect_volume_state`, as a
function of the stdout of the two `pactl` invocations (the `Err` case —
`pactl` itself failing to run — is handled by the caller's `Option`).
`level_percent` starts at the sentinel `50`; each line containing `Volume:`
whose scan succeeds overwrites it (clamped to at most 100 by `min`). -/
def collect_volume_state (volOut muteOut : String) : VolumeState :=
  let level_percent := (split_lines volOut).foldl
    (fun acc line =>
      if containsSubstr line "Volume:" then
        match scan_volume_parts (splitWhitespace line) with
        | some v => v
        | none => acc
      else acc) 50
  { level_percent := level_percent
    muted := ends_with (str_trim muteOut) "yes" }

/-- The `for line in stats_content.lines()` loop of
`collect_network_traffic` (`collectors.rs:244-268`): find the first line for
the interface with at least 10 whitespace-separated fields, parse the
receive/transmit byte counters (`unwrap_or(0)`), compute the kbps pair from
the previous sample if one exists (saturating subtraction, divided by 1024),
and record the new sample in the baseline map.  Falls through to a zero
`NetworkTraffic` with the baseline map untouched when no line matches. -/
def scan_traffic_lines (prev : List (String × Nat × Nat)) (interface : String) :
    List String → NetworkTraffic × List (String × Nat × Nat)
  | [] => ({ interface := interface, rx_kbps := 0, tx_kbps := 0 }, prev)
  | line :: rest =>
    if starts_with (str_trim line) (interface ++ ":") then
      let parts := splitWhitespace line
      if parts.length ≥ 10 then
        let rx_bytes := (parse_u64 (parts.getD 1 "")).getD 0
        let tx_bytes := (parse_u64 (parts.getD 9 "")).getD 0
        let rates : ℚ × ℚ :=
          match lookupStat prev interface with
          | some (prev_rx, prev_tx) =>
            (((rx_bytes - prev_rx : Nat) : ℚ) / 1024, ((tx_bytes - prev_tx : Nat) : ℚ) / 1024)
          | none => (0, 0)
        ({ interface := interface, rx_kbps := rates.1, tx_kbps := rates.2 },
         insertStat prev interface (rx_bytes, tx_bytes))
      else scan_traffic_lines prev interface rest
    else scan_traffic_lines prev interface rest

/-- `collectors.rs:240-275`: `SystemCollector::collect_network_traffic`.
`stats` is the outcome of reading `/proc/net/dev` (`none` = read failure,
which is the only `Err` path).  Returns the traffic sample together with the
updated private baseline map `prev_network_stats`. -/
def collect_network_traffic (prev : List (String × Nat × Nat)) (interface : String)
    (stats : Option String) : Except String (NetworkTraffic × List (String × Nat × Nat)) :=
  match stats with
  | none => .error "Failed to read network statistics"
  | some content => .ok (scan_traffic_lines prev interface (split_lines content))

/-! ## Weather client (`src/weather.rs`) -/

/-- `weather.rs`: `OpenWeatherMain` (`f64` fields as `Rat`). -/
structure OpenWeatherMain where
  temp : ℚ
  feels_like : ℚ
  humidity : ℤ
deriving Repr, DecidableEq

/-- `weather.rs`: `OpenWeatherWeather`. -/
structure OpenWeatherWeather where
  id : ℤ
  main : String
  description : String
  icon : String
deriving Repr, DecidableEq

/-- `weather.rs`: `OpenWeatherSys`. -/
structure OpenWeatherSys where
  country : String
deriving Repr, DecidableEq

/-- `weather.rs`: `OpenWeatherResponse`. -/
structure OpenWeatherResponse where
  main : OpenWeatherMain
  weather : List OpenWeatherWeather
  name : String
  sys : OpenWeatherSys
deriving Repr, DecidableEq

/-- The outcome of the external HTTP fetch performed by `fetch_openweather`:
either the send failed (`reqwest` error), or a response arrived with a status
code and a body whose JSON decode into `OpenWeatherResponse` may fail. -/
inductive HttpOutcome where
  | sendError (msg : String)
  | response (status : Nat) (body : Except String OpenWeatherResponse)
deriving Repr

/-- `weather.rs:165-196`: `WeatherClient::get_icon_mapping`, as an
association list. -/
def get_icon_mapping : List (String × String) :=
  [ ("01", "clear")
  , ("02", "few-clouds")
  , ("03", "scattered-clouds")
  , ("04", "broken-clouds")
  , ("09", "shower-rain")
  , ("10", "rain")
  , ("11", "thunderstorm")
  , ("13", "snow")
  , ("50", "mist") ]

/-- `HashMap::get` on the icon-mapping association list. -/
def lookupIcon : List (String × String) → String → Option String
  | [], _ => none
  | (k, v) :: rest, key => if k = key then some v else lookupIcon rest key

/-- `weather.rs:153-163`: `WeatherClient::map_weather_icon`.  The Rust code
strips the final day/night indicator with the byte slice
`&openweather_icon[..openweather_icon.len()-1]`: on an empty icon string the
`usize` subtraction underflows and the program panics, and on an icon whose
final character occupies more than one UTF-8 byte the slice boundary falls
inside that character and the slice indexing panics.  `none` models that
panic; otherwise the final (single-byte) character is dropped and the icon
map is consulted with the `base`-then-full-icon fallback chain. -/
def map_weather_icon (openweather_icon : String) : Option String :=
  match openweather_icon.toList.reverse with
  | [] => none
  | c :: rest =>
    if c.utf8Size = 1 then
      some (((lookupIcon get_icon_mapping (rest.reverse).asString).or
        (lookupIcon get_icon_mapping openweather_icon)).getD "unknown")
    else none

/-- `weather.rs:135-142`: `WeatherClient::get_fallback_weather` (the
no-API-key fallback). -/
def get_fallback_weather (config : Config) : WeatherInfo :=
  { location_display := config.weather.location
    temperature_c := 20
    condition := "Weather data unavailable"
    icon_name := some "unknown" }

/-- `weather.rs:144-151`: `WeatherClient::fallback_weather` (the
fetch-error fallback, carrying the reason). -/
def fallback_weather (config : Config) (reason : String) : WeatherInfo :=
  { location_display := config.weather.location
    temperature_c := 20
    condition := "Weather unavailable: " ++ reason
    icon_name := some "unknown" }

/-- `weather.rs:60-133`: `WeatherClient::fetch_openweather`, as a function of
the HTTP outcome.  Every failure branch returns `Ok` of a fallback record;
`reqwest::StatusCode::is_success()` is the range `200..=299`.  The outer
`Option` layer models termination: `none` is the panic of
`map_weather_icon`'s byte slice on a successful response whose first weather
entry carries an ill-formed icon string, on which the function never
returns. -/
def fetch_openweather (config : Config) (outcome : HttpOutcome) :
    Option (Except String WeatherInfo) :=
  match outcome with
  | .sendError _ => some (.ok (fallback_weather config "Network error"))
  | .response status body =>
    if ¬(200 ≤ status ∧ status ≤ 299) then
      if status = 401 then some (.ok (fallback_weather config "Invalid API key"))
      else if status = 403 then some (.ok (fallback_weather config "API access forbidden"))
      else if status = 429 then some (.ok (fallback_weather config "Rate limit exceeded"))
      else if status = 404 then some (.ok (fallback_weather config "Location not found"))
      else if 500 ≤ status ∧ status ≤ 599 then
        some (.ok (fallback_weather config "Service unavailable"))
      else some (.ok (fallback_weather config "API error"))
    else
      match body with
      | .error _ => some (.ok (fallback_weather config "Invalid response"))
      | .ok weather_data =>
        match weather_data.weather.head? with
        | none => some (.ok (fallback_weather config "No weather data"))
        | some primary_weather =>
          match map_weather_icon primary_weather.icon with
          | none => none
          | some icon_name =>
            some (.ok
              { location_display := weather_data.name ++ ", " ++ weather_data.sys.country
                temperature_c := rustRound weather_data.main.temp
                condition := primary_weather.description
                icon_name := some icon_name })

/-- `weather.rs:52-58`: `WeatherClient::fetch_weather`.  `api_key` is the
client's key (the daemon constructs the weather collector with
`config.weather.api_key`); with no key the external fetch is not attempted
at all.  `none` is the propagated icon-slice panic of `fetch_openweather`. -/
def fetch_weather (api_key : Option String) (config : Config) (outcome : HttpOutcome) :
    Option (Except String WeatherInfo) :=
  match api_key with
  | some _ => fetch_openweather config outcome
  | none => some (.ok (get_fallback_weather config))

/-! ## Action layer (`src/actions.rs`)

Each action shells out to system utilities.  An `ExecCall` records one
invoked command line; the `ExecEnv` oracle maps an invocation to its
outcome (`Except.ok stdout` on success, `Except.error msg` with the
formatted failure message on failure — for spawned processes success means
the spawn succeeded, the exit status being unobserved).  Every action
returns its result together with the list of invocations it performed, so
that "the action collaborator was never invoked" is the statement that this
list is empty. -/

/-- One external command invocation: program name and arguments. -/
structure ExecCall where
  cmd : String
  args : List String
deriving Repr, DecidableEq

/-- Oracle for the outcome of external command invocations. -/
def ExecEnv : Type := ExecCall → Except String String

namespace ActionHandler

/-- `actions.rs:12-28`: `ActionHandler::execute_command` (discards stdout). -/
def execute_command (env : ExecEnv) (cmd : String) (args : List String) :
    Except String Unit × List ExecCall :=
  (match env { cmd := cmd, args := args } with
   | .ok _ => .ok ()
   | .error e => .error e,
   [{ cmd := cmd, args := args }])

/-- `actions.rs:32-47`: `ActionHandler::execute_command_with_output`. -/
def execute_command_with_output (env : ExecEnv) (cmd : String) (args : List String) :
    Except String String × List ExecCall :=
  (env { cmd := cmd, args := args }, [{ cmd := cmd, args := args }])

/-- `actions.rs:112-117`: a direct `Command::spawn` (used by the launchers);
same shape as `execute_command`, but success only means the process was
spawned. -/
def spawn_command (env : ExecEnv) (cmd : String) (args : List String) :
    Except String Unit × List ExecCall :=
  (match env { cmd := cmd, args := args } with
   | .ok _ => .ok ()
   | .error e => .error e,
   [{ cmd := cmd, args := args }])

/-- `actions.rs:50-53`: `ActionHandler::logout` (`user` is the `USER`
environment variable with its `"user"` default already applied). -/
def logout (env : ExecEnv) (user : String) : Except String Unit × List ExecCall :=
  execute_command env "loginctl" ["terminate-user", user]

/-- `actions.rs:55-57`: `ActionHandler::reboot`. -/
def reboot (env : ExecEnv) : Except String Unit × List ExecCall :=
  execute_command env "systemctl" ["reboot"]

/-- `actions.rs:59-61`: `ActionHandler::shutdown`. -/
def shutdown (env : ExecEnv) : Except String Unit × List ExecCall :=
  execute_command env "systemctl" ["poweroff"]

/-- `actions.rs:128-131`: `ActionHandler::check_wifi_status`. -/
def check_wifi_status (env : ExecEnv) : Except String Bool × List ExecCall :=
  let r := execute_command_with_output env "nmcli" ["radio", "wifi"]
  (r.1.map (fun out => str_trim out == "enabled"), r.2)

/-- `actions.rs:133-136`: `ActionHandler::check_bluetooth_status`. -/
def check_bluetooth_status (env : ExecEnv) : Except String Bool × List ExecCall :=
  let r := execute_command_with_output env "bluetoothctl" ["show"]
  (r.1.map (fun out => containsSubstr out "Powered: yes"), r.2)

/-- `actions.rs:138-141`: `ActionHandler::check_vpn_status`. -/
def check_vpn_status (env : ExecEnv) (vpn_name : String) :
    Except String Bool × List ExecCall :=
  let r := execute_command_with_output env "nmcli" ["connection", "show", "--active"]
  (r.1.map (fun out => containsSubstr out vpn_name), r.2)

/-- `actions.rs:64-70`: `ActionHandler::toggle_wifi`. -/
def toggle_wifi (env : ExecEnv) : Except String Bool × List ExecCall :=
  let c := check_wifi_status env
  match c.1 with
  | .error e => (.error e, c.2)
  | .ok current_status =>
    let new_status := if current_status then "off" else "on"
    let r := execute_command env "nmcli" ["radio", "wifi", new_status]
    match r.1 with
    | .error e => (.error e, c.2 ++ r.2)
    | .ok _ => (.ok (!current_status), c.2 ++ r.2)

/-- `actions.rs:72-78`: `ActionHandler::toggle_bluetooth`. -/
def toggle_bluetooth (env : ExecEnv) : Except String Bool × List ExecCall :=
  let c := check_bluetooth_status env
  match c.1 with
  | .error e => (.error e, c.2)
  | .ok current_status =>
    let new_status := if current_status then "off" else "on"
    let r := execute_command env "bluetoothctl" ["power", new_status]
    match r.1 with
    | .error e => (.error e, c.2 ++ r.2)
    | .ok _ => (.ok (!current_status), c.2 ++ r.2)

/-- `actions.rs:80-90`: `ActionHandler::toggle_vpn`. -/
def toggle_vpn (env : ExecEnv) (vpn_name : String) : Except String Bool × List ExecCall :=
  let c := check_vpn_status env vpn_name
  match c.1 with
  | .error e => (.error e, c.2)
  | .ok current_status =>
    let r :=
      if current_status then execute_command env "nmcli" ["connection", "down", vpn_name]
      else execute_command env "nmcli" ["connection", "up", vpn_name]
    match r.1 with
    | .error e => (.error e, c.2 ++ r.2)
    | .ok _ => (.ok (!current_status), c.2 ++ r.2)

/-- `actions.rs:93-97`: `ActionHandler::set_volume` — note the defensive
clamp `percent.min(100)` applied before building the `pactl` argument. -/
def set_volume (env : ExecEnv) (percent : Nat) : Except String Unit × List ExecCall :=
  execute_command env "pactl"
    ["set-sink-volume", "@DEFAULT_SINK@", toString (min percent 100) ++ "%"]

/-- `actions.rs:99-108`: `ActionHandler::toggle_mute`. -/
def toggle_mute (env : ExecEnv) : Except String Bool × List ExecCall :=
  let r := execute_command env "pactl" ["set-sink-mute", "@DEFAULT_SINK@", "toggle"]
  match r.1 with
  | .error e => (.error e, r.2)
  | .ok _ =>
    let m := execute_command_with_output env "pactl" ["get-sink-mute", "@DEFAULT_SINK@"]
    match m.1 with
    | .error e => (.error e, r.2 ++ m.2)
    | .ok mute_output => (.ok (ends_with (str_trim mute_output) "yes"), r.2 ++ m.2)

/-- `actions.rs:111-117`: `ActionHandler::launch_rofi`. -/
def launch_rofi (env : ExecEnv) (command : String) : Except String Unit × List ExecCall :=
  spawn_command env "sh" ["-c", command]

/-- `actions.rs:119-125`: `ActionHandler::launch_url`. -/
def launch_url (env : ExecEnv) (url : String) (browser_command : String) :
    Except String Unit × List ExecCall :=
  spawn_command env browser_command [url]

end ActionHandler

/-! ## Daemon (`src/daemon.rs`) -/

/-- `daemon.rs:14-28`: `IpcCommand` (`u8` volume as `Nat`). -/
inductive IpcCommand where
  | ToggleOverlay
  | GetState
  | SetVolume (volume : Nat)
  | ToggleMute
  | ToggleWifi
  | ToggleBluetooth
  | ToggleVpn
  | Logout
  | Reboot
  | Shutdown
  | LaunchRofi
  | LaunchUrl (url : String)
deriving Repr, DecidableEq

/-- `daemon.rs:30-36`: `IpcResponse`. -/
inductive IpcResponse where
  | Success
  | State (s : VacuumState)
  | Error (msg : String)
  | ToggleResult (b : Bool)
deriving Repr, DecidableEq

/-- `daemon.rs:330-349`: `validate_command`. -/
def validate_command (command : IpcCommand) : Except String Unit :=
  match command with
  | .SetVolume volume =>
    if volume > 100 then .error "Volume must be between 0 and 100" else .ok ()
  | .LaunchUrl url =>
    if str_isEmpty url then .error "URL cannot be empty"
    else if ¬starts_with url "http://" ∧ ¬starts_with url "https://" then
      .error "URL must start with http:// or https://"
    else .ok ()
  | _ => .ok ()

/-- `daemon.rs:351-429`: `handle_command`.  `store` is the snapshot read by
`GetState`, `user` is the `USER` environment variable (defaulted to
`"user"`), `env` is the external-command oracle.  Returns the single
response together with the action invocations performed. -/
def handle_command (command : IpcCommand) (store : VacuumState) (config : Config)
    (env : ExecEnv) (user : String) : IpcResponse × List ExecCall :=
  match command with
  | .ToggleOverlay => (.Success, [])
  | .GetState => (.State store, [])
  | .SetVolume volume =>
    let r := ActionHandler.set_volume env volume
    (match r.1 with | .ok _ => .Success | .error e => .Error e, r.2)
  | .ToggleMute =>
    let r := ActionHandler.toggle_mute env
    (match r.1 with | .ok muted => .ToggleResult muted | .error e => .Error e, r.2)
  | .ToggleWifi =>
    let r := ActionHandler.toggle_wifi env
    (match r.1 with | .ok enabled => .ToggleResult enabled | .error e => .Error e, r.2)
  | .ToggleBluetooth =>
    let r := ActionHandler.toggle_bluetooth env
    (match r.1 with | .ok enabled => .ToggleResult enabled | .error e => .Error e, r.2)
  | .ToggleVpn =>
    let vpn_name := config.network.vpn_name.getD "vpn"
    let r := ActionHandler.toggle_vpn env vpn_name
    (match r.1 with | .ok connected => .ToggleResult connected | .error e => .Error e, r.2)
  | .Logout =>
    let r := ActionHandler.logout env user
    (match r.1 with | .ok _ => .Success | .error e => .Error e, r.2)
  | .Reboot =>
    let r := ActionHandler.reboot env
    (match r.1 with | .ok _ => .Success | .error e => .Error e, r.2)
  | .Shutdown =>
    let r := ActionHandler.shutdown env
    (match r.1 with | .ok _ => .Success | .error e => .Error e, r.2)
  | .LaunchRofi =>
    let r := ActionHandler.launch_rofi env config.shortcuts.rofi_command
    (match r.1 with | .ok _ => .Success | .error e => .Error e, r.2)
  | .LaunchUrl url =>
    let r := ActionHandler.launch_url env url config.shortcuts.browser_command
    (match r.1 with | .ok _ => .Success | .error e => .Error e, r.2)

/-- How one IPC connection ends: closed silently, or closed after exactly
one reply. -/
inductive ConnOutcome where
  | closedNoReply
  | reply (r : IpcResponse)
deriving Repr, DecidableEq

/-- `daemon.rs:278-328`: `handle_ipc_connection`, as a function of the
number of bytes `n` returned by the single 4096-byte read and of the
serde-decode outcome `decoded` of those bytes (`Except.error` carries the
serde diagnostic interpolated into the reply). -/
def handle_ipc_connection (n : Nat) (decoded : Except String IpcCommand)
    (store : VacuumState) (config : Config) (env : ExecEnv) (user : String) :
    ConnOutcome × List ExecCall :=
  if n = 0 then (.closedNoReply, [])
  else if n ≥ 4096 then (.reply (.Error "Message too large"), [])
  else
    match decoded with
    | .error e => (.reply (.Error ("Invalid message format: " ++ e)), [])
    | .ok command =>
      match validate_command command with
      | .error validation_error => (.reply (.Error validation_error), [])
      | .ok _ =>
        let r := handle_command command store config env user
        (.reply r.1, r.2)

/-- Observable steps of the daemon startup sequence
(`daemon.rs:57-78`). -/
inductive SockOp where
  | connectAttempt
  | removeFile
  | bindAttempt
  | serve
deriving Repr, DecidableEq

/-- `daemon.rs:60-78`: the single-instance guard and bind of
`VacuumDaemon::run`, as a function of the environment: whether the socket
path exists, whether a connection to it succeeds, and the outcomes of
`remove_file` and `UnixListener::bind`.  Returns the startup result and the
ordered trace of socket-path operations; `SockOp.serve` marks the daemon
proceeding to its update loops and accept loop. -/
def daemon_startup (socket_exists connect_ok : Bool)
    (remove_result bind_result : Except String Unit) :
    Except String Unit × List SockOp :=
  let proceed : List SockOp → Except String Unit × List SockOp := fun ops =>
    match bind_result with
    | .error e => (.error ("Failed to bind Unix socket: " ++ e), ops ++ [.bindAttempt])
    | .ok _ => (.ok (), ops ++ [.bindAttempt, .serve])
  if socket_exists then
    if connect_ok then (.error "Daemon already running", [.connectAttempt])
    else
      match remove_result with
      | .error e => (.error e, [.connectAttempt, .removeFile])
      | .ok _ => proceed [.connectAttempt, .removeFile]
  else proceed []

/-! ### Update loops (`daemon.rs:118-275`)

Each periodic task's tick body runs under a successful `try_write` (a failed
`try_write` skips the whole body, changing nothing); the tick functions
below model the body given the outcomes of the collector calls, `none`
standing for a collector `Err`. -/

/-- `daemon.rs:130-160`: one tick of the system-info loop. -/
def systemTick (s : VacuumState) (sysR : Option SystemInfo)
    (storR : Option (List DiskInfo)) (userR : Option UserInfo)
    (togR : Option Toggles) : VacuumState :=
  let s := match sysR with | some system_info => { s with system_info } | none => s
  let s := match storR with | some storage_info => { s with storage_info } | none => s
  let s := match userR with | some user_info => { s with user_info } | none => s
  match togR with | some toggles => { s with toggles } | none => s

/-- `daemon.rs:169-191`: one tick of the network loop.  The traffic
collector is invoked only when the status collector succeeded, on the
interface the status reported; `c` is the task's private baseline map and
`stats` the `/proc/net/dev` read outcome. -/
def networkTick (s : VacuumState) (c : List (String × Nat × Nat))
    (statusR : Option NetworkStatus) (stats : Option String) :
    VacuumState × List (String × Nat × Nat) :=
  match statusR with
  | none => (s, c)
  | some network_status =>
    let interface := network_status.interface
    let s1 := { s with network_status }
    match collect_network_traffic c interface stats with
    | .error _ => (s1, c)
    | .ok (network_traffic, c2) => ({ s1 with network_traffic }, c2)

/-- `daemon.rs:200-225`: one tick of the audio loop.  `volR` is the outcome
of the two `pactl` invocations inside `collect_volume_state` (`none` = the
command itself failed, i.e. the collector returned `Err`).  The third
assignment of the source body (`daemon.rs:214-216`) stores
`collect_audio_visualizer_data()` into a field `audio_visualizer` that the
`VacuumState` record of `state.rs:3-15` does not declare, so the aggregate
record has no sub-record it could change. -/
def audioTick (s : VacuumState) (audioR : Option AudioStatus)
    (volR : Option (String × String)) (_visR : Option AudioVisualizerData) :
    VacuumState :=
  let s := match audioR with | some audio_status => { s with audio_status } | none => s
  match volR with
  | some (volOut, muteOut) => { s with volume_state := collect_volume_state volOut muteOut }
  | none => s

/-- `daemon.rs:239-256`: one tick of the weather loop; `weatherR` is the
outcome of `collect_weather_info`. -/
def weatherTick (s : VacuumState) (weatherR : Except String WeatherInfo) : VacuumState :=
  match weatherR with
  | .ok weather_info => { s with weather_info }
  | .error _ => s

/-- `daemon.rs:259-274`: the one-time launcher-shortcuts initialization at
the end of `start_update_loops`. -/
def init_launcher_shortcuts (config : Config) (s : VacuumState) : VacuumState :=
  { s with
    launcher_shortcuts :=
      { left_links := config.shortcuts.left_links.map
          (fun link =>
            { label := link.label, url := link.url, icon_name := link.icon_name })
        rofi_command := config.shortcuts.rofi_command } }

/-- The Store's contents when the daemon starts serving: the `Default`
record (`VacuumState::default()`, `daemon.rs:47`) with the launcher
shortcuts copied in from configuration. -/
def initialStore (config : Config) : VacuumState :=
  init_launcher_shortcuts config VacuumState.default

/-- The states of the Store reachable from startup under any interleaving of
the four periodic tasks' ticks, with arbitrary collector outcomes.  IPC
handlers never write the Store (`handle_command` only reads it), so these
are all the reachable Store states. -/
inductive Reachable : VacuumState → Prop where
  | init (config : Config) : Reachable (initialStore config)
  | system (s : VacuumState) (sysR : Option SystemInfo) (storR : Option (List DiskInfo))
      (userR : Option UserInfo) (togR : Option Toggles) :
      Reachable s → Reachable (systemTick s sysR storR userR togR)
  | network (s : VacuumState) (c : List (String × Nat × Nat))
      (statusR : Option NetworkStatus) (stats : Option String) :
      Reachable s → Reachable (networkTick s c statusR stats).1
  | audio (s : VacuumState) (audioR : Option AudioStatus)
      (volR : Option (String × String)) (visR : Option AudioVisualizerData) :
      Reachable s → Reachable (audioTick s audioR volR visR)
  | weather (s : VacuumState) (weatherR : Except String WeatherInfo) :
      Reachable s → Reachable (weatherTick s weatherR)

/-! ## Helper lemmas -/

/-- The system-info tick leaves every field outside its domain unchanged. -/
theorem systemTick_frame (s : VacuumState) (sysR : Option SystemInfo)
    (storR : Option (List DiskInfo)) (userR : Option UserInfo) (togR : Option Toggles) :
    (systemTick s sysR storR userR togR).network_status = s.network_status ∧
    (systemTick s sysR storR userR togR).network_traffic = s.network_traffic ∧
    (systemTick s sysR storR userR togR).audio_status = s.audio_status ∧
    (systemTick s sysR storR userR togR).volume_state = s.volume_state ∧
    (systemTick s sysR storR userR togR).weather_info = s.weather_info ∧
    (systemTick s sysR storR userR togR).launcher_shortcuts = s.launcher_shortcuts := by
  cases sysR <;> cases storR <;> cases userR <;> cases togR <;>
    exact ⟨rfl, rfl, rfl, rfl, rfl, rfl⟩

/-- The network tick leaves every field outside its domain unchanged. -/
theorem networkTick_frame (s : VacuumState) (c : List (String × Nat × Nat))
    (statusR : Option NetworkStatus) (stats : Option String) :
    (networkTick s c statusR stats).1.user_info = s.user_info ∧
    (networkTick s c statusR stats).1.system_info = s.system_info ∧
    (networkTick s c statusR stats).1.storage_info = s.storage_info ∧
    (networkTick s c statusR stats).1.audio_status = s.audio_status ∧
    (networkTick s c statusR stats).1.volume_state = s.volume_state ∧
    (networkTick s c statusR stats).1.weather_info = s.weather_info ∧
    (networkTick s c statusR stats).1.launcher_shortcuts = s.launcher_shortcuts ∧
    (networkTick s c statusR stats).1.toggles = s.toggles := by
  cases statusR with
  | none => exact ⟨rfl, rfl, rfl, rfl, rfl, rfl, rfl, rfl⟩
  | some ns =>
    cases stats with
    | none => exact ⟨rfl, rfl, rfl, rfl, rfl, rfl, rfl, rfl⟩
    | some content =>
      simp [networkTick, collect_network_traffic]

/-- The audio tick leaves every field outside its domain unchanged. -/
theorem audioTick_frame (s : VacuumState) (audioR : Option AudioStatus)
    (volR : Option (String × String)) (visR : Option AudioVisualizerData) :
    (audioTick s audioR volR visR).user_info = s.user_info ∧
    (audioTick s audioR volR visR).system_info = s.system_info ∧
    (audioTick s audioR volR visR).storage_info = s.storage_info ∧
    (audioTick s audioR volR visR).network_status = s.network_status ∧
    (audioTick s audioR volR visR).network_traffic = s.network_traffic ∧
    (audioTick s audioR volR visR).weather_info = s.weather_info ∧
    (audioTick s audioR volR visR).launcher_shortcuts = s.launcher_shortcuts ∧
    (audioTick s audioR volR visR).toggles = s.toggles := by
  cases audioR <;> rcases volR with _ | ⟨vo, mo⟩ <;>
    exact ⟨rfl, rfl, rfl, rfl, rfl, rfl, rfl, rfl⟩

/-- The weather tick leaves every field outside its domain unchanged. -/
theorem weatherTick_frame (s : VacuumState) (weatherR : Except String WeatherInfo) :
    (weatherTick s weatherR).user_info = s.user_info ∧
    (weatherTick s weatherR).system_info = s.system_info ∧
    (weatherTick s weatherR).storage_info = s.storage_info ∧
    (weatherTick s weatherR).network_status = s.network_status ∧
    (weatherTick s weatherR).network_traffic = s.network_traffic ∧
    (weatherTick s weatherR).audio_status = s.audio_status ∧
    (weatherTick s weatherR).volume_state = s.volume_state ∧
    (weatherTick s weatherR).launcher_shortcuts = s.launcher_shortcuts ∧
    (weatherTick s weatherR).toggles = s.toggles := by
  cases weatherR <;> exact ⟨rfl, rfl, rfl, rfl, rfl, rfl, rfl, rfl, rfl⟩

/-- A successful part scan yields a value clamped to at most 100. -/
theorem scan_volume_parts_le (l : List String) (v : Nat)
    (h : scan_volume_parts l = some v) : v ≤ 100 := by
  induction l with
  | nil => simp [scan_volume_parts] at h
  | cons part rest ih =>
    by_cases hp : ends_with part "%"
    · rcases hu : parse_u8 (trim_end_matches_percent part) with _ | volume
      · rw [scan_volume_parts, if_pos hp, hu] at h
        exact ih h
      · rw [scan_volume_parts, if_pos hp, hu] at h
        cases h
        exact Nat.min_le_right volume 100
    · rw [scan_volume_parts, if_neg hp] at h
      exact ih h

/-- The `Volume:` line fold of `collect_volume_state` keeps the level at or
below 100 whenever its accumulator starts there. -/
theorem volume_fold_le (lines : List String) (acc : Nat) (h : acc ≤ 100) :
    lines.foldl
      (fun acc line =>
        if containsSubstr line "Volume:" then
          match scan_volume_parts (splitWhitespace line) with
          | some v => v
          | none => acc
        else acc) acc ≤ 100 := by
  induction lines generalizing acc with
  | nil => exact h
  | cons line rest ih =>
    rw [List.foldl_cons]
    apply ih
    by_cases hc : containsSubstr line "Volume:"
    · rcases hm : scan_volume_parts (splitWhitespace line) with _ | v
      · simpa [hc, hm] using h
      · simpa [hc, hm] using scan_volume_parts_le _ _ hm
    · simpa [hc] using h

/-- The volume collector can only return levels in `[0, 100]`. -/
theorem collect_volume_state_le (volOut muteOut : String) :
    (collect_volume_state volOut muteOut).level_percent ≤ 100 :=
  volume_fold_le (split_lines volOut) 50 (by norm_num)

/-- The audio tick's `volume_state` is either preserved (volume collector
failed) or the output of `collect_volume_state`. -/
theorem audioTick_volume_state (s : VacuumState) (audioR : Option AudioStatus)
    (volR : Option (String × String)) (visR : Option AudioVisualizerData) :
    (audioTick s audioR volR visR).volume_state =
      match volR with
      | some (volOut, muteOut) => collect_volume_state volOut muteOut
      | none => s.volume_state := by
  cases audioR <;> rcases volR with _ | ⟨vo, mo⟩ <;> rfl

/-- A URL beginning with `http://` or `https://` is nonempty and passes
`validate_command`. -/
theorem validate_launch_url_ok (url : String)
    (h : starts_with url "http://" = true ∨ starts_with url "https://" = true) :
    validate_command (.LaunchUrl url) = .ok () := by
  cases he : str_isEmpty url with
  | true =>
    exfalso
    have hl : url.toList = [] := by
      unfold str_isEmpty at he
      exact List.isEmpty_iff.mp he
    rcases h with hs | hs <;>
      (unfold starts_with at hs; rw [hl] at hs; exact absurd hs (by decide))
  | false =>
    rcases h with hs | hs <;> simp [validate_command, he, hs]

/-- With no baseline for the interface, the traffic scan reports zero rates
whatever the `/proc/net/dev` lines contain. -/
theorem scan_traffic_first_obs (prev : List (String × Nat × Nat)) (i : String)
    (h : lookupStat prev i = none) (lines : List String) :
    (scan_traffic_lines prev i lines).1.rx_kbps = 0 ∧
    (scan_traffic_lines prev i lines).1.tx_kbps = 0 := by
  induction lines with
  | nil => exact ⟨rfl, rfl⟩
  | cons line rest ih =>
    cases hb : starts_with (str_trim line) (i ++ ":") with
    | false => simpa [scan_traffic_lines, hb] using ih
    | true =>
      by_cases hp : (splitWhitespace line).length ≥ 10
      · simp [scan_traffic_lines, hb, hp, h]
      · simpa [scan_traffic_lines, hb, hp] using ih

/-- With a baseline `(prx, ptx)` for the interface, scanning a matching line
with at least 10 fields yields the saturating byte deltas divided by 1024
and replaces the baseline with the new counters. -/
theorem scan_traffic_later_obs (prev : List (String × Nat × Nat)) (i : String)
    (prx ptx : Nat) (line : String) (rest : List String)
    (h : lookupStat prev i = some (prx, ptx))
    (hm : starts_with (str_trim line) (i ++ ":") = true)
    (hp : (splitWhitespace line).length ≥ 10) :
    scan_traffic_lines prev i (line :: rest) =
      ({ interface := i
         rx_kbps := ((((parse_u64 ((splitWhitespace line).getD 1 "")).getD 0) - prx : Nat) : ℚ) / 1024
         tx_kbps := ((((parse_u64 ((splitWhitespace line).getD 9 "")).getD 0) - ptx : Nat) : ℚ) / 1024 },
       insertStat prev i
         ((parse_u64 ((splitWhitespace line).getD 1 "")).getD 0,
          (parse_u64 ((splitWhitespace line).getD 9 "")).getD 0)) := by
  simp [scan_traffic_lines, hm, hp, h]

/-- The traffic scan never reports a negative rate. -/
theorem scan_traffic_nonneg (prev : List (String × Nat × Nat)) (i : String)
    (lines : List String) :
    0 ≤ (scan_traffic_lines prev i lines).1.rx_kbps ∧
    0 ≤ (scan_traffic_lines prev i lines).1.tx_kbps := by
  induction lines with
  | nil => exact ⟨le_refl 0, le_refl 0⟩
  | cons line rest ih =>
    cases hb : starts_with (str_trim line) (i ++ ":") with
    | false => simpa [scan_traffic_lines, hb] using ih
    | true =>
      by_cases hp : (splitWhitespace line).length ≥ 10
      · rcases hl : lookupStat prev i with _ | ⟨prx, ptx⟩
        · simp [scan_traffic_lines, hb, hp, hl]
        · simp only [scan_traffic_lines, hb, hp, hl, if_true, ge_iff_le]
          constructor <;> positivity
      · simpa [scan_traffic_lines, hb, hp] using ih

/-! ## Claims -/

/-- **C1** (stale preservation): for every domain owned by a periodic update
task — system, storage, user, toggles, network status, network traffic,
audio status, volume, weather — if that domain's collector call on a tick
returns a failure, the Store's field for that domain after the tick equals
its value before the tick.  (A failed network-status collection also skips
the traffic collection, and a traffic collection fails exactly when the
`/proc/net/dev` read fails; both leave `network_traffic` in place.) -/
theorem C1_stale_preservation :
    (∀ s storR userR togR, (systemTick s none storR userR togR).system_info = s.system_info) ∧
    (∀ s sysR userR togR, (systemTick s sysR none userR togR).storage_info = s.storage_info) ∧
    (∀ s sysR storR togR, (systemTick s sysR storR none togR).user_info = s.user_info) ∧
    (∀ s sysR storR userR, (systemTick s sysR storR userR none).toggles = s.toggles) ∧
    (∀ s c stats, (networkTick s c none stats).1.network_status = s.network_status) ∧
    (∀ s c stats, (networkTick s c none stats).1.network_traffic = s.network_traffic) ∧
    (∀ s c ns, (networkTick s c (some ns) none).1.network_traffic = s.network_traffic) ∧
    (∀ s volR visR, (audioTick s none volR visR).audio_status = s.audio_status) ∧
    (∀ s audioR visR, (audioTick s audioR none visR).volume_state = s.volume_state) ∧
    (∀ s e, (weatherTick s (Except.error e)).weather_info = s.weather_info) := by
  refine ⟨?_, ?_, ?_, ?_, ?_, ?_, ?_, ?_, ?_, ?_⟩
  · intro s storR userR togR
    cases storR <;> cases userR <;> cases togR <;> rfl
  · intro s sysR userR togR
    cases sysR <;> cases userR <;> cases togR <;> rfl
  · intro s sysR storR togR
    cases sysR <;> cases storR <;> cases togR <;> rfl
  · intro s sysR storR userR
    cases sysR <;> cases storR <;> cases userR <;> rfl
  · intro s c stats
    rfl
  · intro s c stats
    rfl
  · intro s c ns
    rfl
  · intro s volR visR
    rcases volR with _ | ⟨vo, mo⟩ <;> rfl
  · intro s audioR visR
    cases audioR <;> rfl
  · intro s e
    rfl

/-- **C7** (domain ownership / frame effect): on any tick, the system-info
task writes only `system_info`, `storage_info`, `user_info` and `toggles`
and leaves all other fields of the aggregate record unchanged; the network
task writes only `network_status` and `network_traffic`; the audio task
writes only `audio_status` and `volume_state`; the weather task writes only
`weather_info`. -/
theorem C7_domain_ownership :
    (∀ s sysR storR userR togR,
      (systemTick s sysR storR userR togR).network_status = s.network_status ∧
      (systemTick s sysR storR userR togR).network_traffic = s.network_traffic ∧
      (systemTick s sysR storR userR togR).audio_status = s.audio_status ∧
      (systemTick s sysR storR userR togR).volume_state = s.volume_state ∧
      (systemTick s sysR storR userR togR).weather_info = s.weather_info ∧
      (systemTick s sysR storR userR togR).launcher_shortcuts = s.launcher_shortcuts) ∧
    (∀ s c statusR stats,
      (networkTick s c statusR stats).1.user_info = s.user_info ∧
      (networkTick s c statusR stats).1.system_info = s.system_info ∧
      (networkTick s c statusR stats).1.storage_info = s.storage_info ∧
      (networkTick s c statusR stats).1.audio_status = s.audio_status ∧
      (networkTick s c statusR stats).1.volume_state = s.volume_state ∧
      (networkTick s c statusR stats).1.weather_info = s.weather_info ∧
      (networkTick s c statusR stats).1.launcher_shortcuts = s.launcher_shortcuts ∧
      (networkTick s c statusR stats).1.toggles = s.toggles) ∧
    (∀ s audioR volR visR,
      (audioTick s audioR volR visR).user_info = s.user_info ∧
      (audioTick s audioR volR visR).system_info = s.system_info ∧
      (audioTick s audioR volR visR).storage_info = s.storage_info ∧
      (audioTick s audioR volR visR).network_status = s.network_status ∧
      (audioTick s audioR volR visR).network_traffic = s.network_traffic ∧
      (audioTick s audioR volR visR).weather_info = s.weather_info ∧
      (audioTick s audioR volR visR).launcher_shortcuts = s.launcher_shortcuts ∧
      (audioTick s audioR volR visR).toggles = s.toggles) ∧
    (∀ s weatherR,
      (weatherTick s weatherR).user_info = s.user_info ∧
      (weatherTick s weatherR).system_info = s.system_info ∧
      (weatherTick s weatherR).storage_info = s.storage_info ∧
      (weatherTick s weatherR).network_status = s.network_status ∧
      (weatherTick s weatherR).network_traffic = s.network_traffic ∧
      (weatherTick s weatherR).audio_status = s.audio_status ∧
      (weatherTick s weatherR).volume_state = s.volume_state ∧
      (weatherTick s weatherR).launcher_shortcuts = s.launcher_shortcuts ∧
      (weatherTick s weatherR).toggles = s.toggles) :=
  ⟨systemTick_frame, networkTick_frame, audioTick_frame, weatherTick_frame⟩

/-- **C10** (volume invariant): the Store's `volume_state.level_percent` is
always in `[0, 100]`: it is initialized to 50, every value the volume
collector produces is clamped to at most 100 (`volume.min(100)` in
`collect_volume_state`), and hence no reachable state of the aggregate
record holds a level above 100. -/
theorem C10_volume_level_invariant :
    VolumeState.default.level_percent = 50 ∧
    (∀ volOut muteOut, (collect_volume_state volOut muteOut).level_percent ≤ 100) ∧
    (∀ s, Reachable s → s.volume_state.level_percent ≤ 100) := by
  refine ⟨rfl, collect_volume_state_le, ?_⟩
  intro s h
  induction h with
  | init config =>
    show (50 : Nat) ≤ 100
    norm_num
  | system s sysR storR userR togR _ ih =>
    rw [(systemTick_frame s sysR storR userR togR).2.2.2.1]
    exact ih
  | network s c statusR stats _ ih =>
    rw [(networkTick_frame s c statusR stats).2.2.2.2.1]
    exact ih
  | audio s audioR volR visR _ ih =>
    rw [audioTick_volume_state s audioR volR visR]
    rcases volR with _ | ⟨vo, mo⟩
    · exact ih
    · exact collect_volume_state_le vo mo
  | weather s weatherR _ ih =>
    rw [(weatherTick_frame s weatherR).2.2.2.2.2.2.1]
    exact ih

/-- Witness for C10: the invariant holds at a concrete reachable state, the
initial Store under the default configuration. -/
theorem C10_volume_level_invariant_witness :
    (initialStore Config.default).volume_state.level_percent ≤ 100 :=
  C10_volume_level_invariant.2.2 (initialStore Config.default)
    (Reachable.init Config.default)

/-- **C8** (initial snapshot): a `GetState` served before any periodic task
has committed a write returns the initial aggregate record — the `Default`
record with only the launcher shortcuts copied in at startup — whose
sentinel placeholders include `system_info.os_name = "Loading..."`,
`volume_state.level_percent = 50` and `toggles.wifi_enabled = false`. -/
theorem C8_initial_get_state :
    (∀ config env user,
      handle_command .GetState (initialStore config) config env user
        = (.State (initialStore config), [])) ∧
    (∀ config, (initialStore config).system_info.os_name = "Loading...") ∧
    (∀ config, (initialStore config).volume_state.level_percent = 50) ∧
    (∀ config, (initialStore config).toggles.wifi_enabled = false) :=
  ⟨fun _ _ _ => rfl, fun _ => rfl, fun _ => rfl, fun _ => rfl⟩

/-- **C4** (oversized and empty reads): a connection whose single read fills
the whole 4096-byte buffer is answered with `Error "Message too large"` and
closed with no decode and no action dispatch (the outcome is the same for
every possible decode of the bytes); a connection whose read returns zero
bytes is closed without any reply. -/
theorem C4_read_edge_cases :
    (∀ decoded store config env user,
      handle_ipc_connection 4096 decoded store config env user
        = (.reply (.Error "Message too large"), [])) ∧
    (∀ decoded store config env user,
      handle_ipc_connection 0 decoded store config env user
        = (.closedNoReply, [])) :=
  ⟨fun _ _ _ _ _ => rfl, fun _ _ _ _ _ => rfl⟩

/-- **C2** (volume command): a `SetVolume v` with `v > 100` fails validation
with `Error "Volume must be between 0 and 100"` and performs no action
invocation; with `v ≤ 100` (in particular 0 and 100) validation passes and
the command is dispatched to the action layer as exactly one `pactl`
invocation, whose argument carries `min v 100` — the defensive clamp of
`ActionHandler::set_volume`, which never exceeds 100. -/
theorem C2_set_volume :
    (∀ v, 100 < v →
      validate_command (.SetVolume v) = .error "Volume must be between 0 and 100") ∧
    (∀ v n store config env user, 0 < n → n < 4096 → 100 < v →
      handle_ipc_connection n (.ok (.SetVolume v)) store config env user
        = (.reply (.Error "Volume must be between 0 and 100"), [])) ∧
    (∀ v, v ≤ 100 → validate_command (.SetVolume v) = .ok ()) ∧
    (∀ v n store config env user out, 0 < n → n < 4096 → v ≤ 100 →
      env { cmd := "pactl"
            args := ["set-sink-volume", "@DEFAULT_SINK@", toString v ++ "%"] } = .ok out →
      handle_ipc_connection n (.ok (.SetVolume v)) store config env user
        = (.reply .Success,
           [{ cmd := "pactl"
              args := ["set-sink-volume", "@DEFAULT_SINK@", toString v ++ "%"] }])) ∧
    (∀ v n store config env user e, 0 < n → n < 4096 → v ≤ 100 →
      env { cmd := "pactl"
            args := ["set-sink-volume", "@DEFAULT_SINK@", toString v ++ "%"] } = .error e →
      handle_ipc_connection n (.ok (.SetVolume v)) store config env user
        = (.reply (.Error e),
           [{ cmd := "pactl"
              args := ["set-sink-volume", "@DEFAULT_SINK@", toString v ++ "%"] }])) ∧
    (∀ env p, (ActionHandler.set_volume env p).2
        = [{ cmd := "pactl"
             args := ["set-sink-volume", "@DEFAULT_SINK@", toString (min p 100) ++ "%"] }] ∧
      min p 100 ≤ 100) := by
  refine ⟨?_, ?_, ?_, ?_, ?_, ?_⟩
  · intro v hv
    simp only [validate_command, if_pos hv]
  · intro v n store config env user hn hn4 hv
    have h0 : ¬(n = 0) := by omega
    have h4 : ¬(n ≥ 4096) := by omega
    simp only [handle_ipc_connection, if_neg h0, if_neg h4, validate_command, if_pos hv]
  · intro v hv
    have h : ¬(v > 100) := by omega
    simp only [validate_command, if_neg h]
  · intro v n store config env user out hn hn4 hv henv
    have h0 : ¬(n = 0) := by omega
    have h4 : ¬(n ≥ 4096) := by omega
    have hmin : min v 100 = v := Nat.min_eq_left hv
    have hgt : ¬(v > 100) := by omega
    simp only [handle_ipc_connection, if_neg h0, if_neg h4, validate_command, if_neg hgt,
      handle_command, ActionHandler.set_volume, ActionHandler.execute_command, hmin, henv]
  · intro v n store config env user e hn hn4 hv henv
    have h0 : ¬(n = 0) := by omega
    have h4 : ¬(n ≥ 4096) := by omega
    have hmin : min v 100 = v := Nat.min_eq_left hv
    have hgt : ¬(v > 100) := by omega
    simp only [handle_ipc_connection, if_neg h0, if_neg h4, validate_command, if_neg hgt,
      handle_command, ActionHandler.set_volume, ActionHandler.execute_command, hmin, henv]
  · intro env p
    exact ⟨rfl, Nat.min_le_right p 100⟩

/-- Witness for C2: `SetVolume 150` is rejected with no invocation,
`SetVolume 100` and `SetVolume 0` are dispatched as clamped `pactl` calls,
under a concrete always-succeeding command oracle. -/
theorem C2_set_volume_witness :
    (handle_ipc_connection 20 (.ok (.SetVolume 150)) VacuumState.default Config.default
        (fun _ => .ok "") "user"
      = (.reply (.Error "Volume must be between 0 and 100"), [])) ∧
    (handle_ipc_connection 20 (.ok (.SetVolume 100)) VacuumState.default Config.default
        (fun _ => .ok "") "user"
      = (.reply .Success,
         [{ cmd := "pactl", args := ["set-sink-volume", "@DEFAULT_SINK@", "100%"] }])) ∧
    (handle_ipc_connection 20 (.ok (.SetVolume 0)) VacuumState.default Config.default
        (fun _ => .ok "") "user"
      = (.reply .Success,
         [{ cmd := "pactl", args := ["set-sink-volume", "@DEFAULT_SINK@", "0%"] }])) :=
  ⟨C2_set_volume.2.1 150 20 VacuumState.default Config.default (fun _ => .ok "") "user"
      (by norm_num) (by norm_num) (by norm_num),
   C2_set_volume.2.2.2.1 100 20 VacuumState.default Config.default (fun _ => .ok "") "user" ""
      (by norm_num) (by norm_num) (by norm_num) rfl,
   C2_set_volume.2.2.2.1 0 20 VacuumState.default Config.default (fun _ => .ok "") "user" ""
      (by norm_num) (by norm_num) (by norm_num) rfl⟩

/-- **C5** (URL command): `LaunchUrl` with an empty URL, or with a URL not
beginning with `http://` or `https://`, fails validation — the handler
replies with the validation `Error` and performs no action invocation — and
every URL beginning with `http://` or `https://` passes validation and is
dispatched to the action layer as one browser invocation on that URL. -/
theorem C5_launch_url :
    (validate_command (.LaunchUrl "") = .error "URL cannot be empty") ∧
    (∀ url, str_isEmpty url = false → starts_with url "http://" = false →
      starts_with url "https://" = false →
      validate_command (.LaunchUrl url) = .error "URL must start with http:// or https://") ∧
    (∀ url msg n store config env user, 0 < n → n < 4096 →
      validate_command (.LaunchUrl url) = .error msg →
      handle_ipc_connection n (.ok (.LaunchUrl url)) store config env user
        = (.reply (.Error msg), [])) ∧
    (∀ url, starts_with url "http://" = true ∨ starts_with url "https://" = true →
      validate_command (.LaunchUrl url) = .ok ()) ∧
    (∀ url n store config env user out, 0 < n → n < 4096 →
      starts_with url "http://" = true ∨ starts_with url "https://" = true →
      env { cmd := config.shortcuts.browser_command, args := [url] } = .ok out →
      handle_ipc_connection n (.ok (.LaunchUrl url)) store config env user
        = (.reply .Success, [{ cmd := config.shortcuts.browser_command, args := [url] }])) ∧
    (∀ url n store config env user e, 0 < n → n < 4096 →
      starts_with url "http://" = true ∨ starts_with url "https://" = true →
      env { cmd := config.shortcuts.browser_command, args := [url] } = .error e →
      handle_ipc_connection n (.ok (.LaunchUrl url)) store config env user
        = (.reply (.Error e), [{ cmd := config.shortcuts.browser_command, args := [url] }])) := by
  refine ⟨?_, ?_, ?_, validate_launch_url_ok, ?_, ?_⟩
  · rfl
  · intro url h1 h2 h3
    simp [validate_command, h1, h2, h3]
  · intro url msg n store config env user hn hn4 hval
    have h0 : ¬(n = 0) := by omega
    have h4 : ¬(n ≥ 4096) := by omega
    simp only [handle_ipc_connection, if_neg h0, if_neg h4, hval]
  · intro url n store config env user out hn hn4 hs henv
    have h0 : ¬(n = 0) := by omega
    have h4 : ¬(n ≥ 4096) := by omega
    simp only [handle_ipc_connection, if_neg h0, if_neg h4, validate_launch_url_ok url hs,
      handle_command, ActionHandler.launch_url, ActionHandler.spawn_command, henv]
  · intro url n store config env user e hn hn4 hs henv
    have h0 : ¬(n = 0) := by omega
    have h4 : ¬(n ≥ 4096) := by omega
    simp only [handle_ipc_connection, if_neg h0, if_neg h4, validate_launch_url_ok url hs,
      handle_command, ActionHandler.launch_url, ActionHandler.spawn_command, henv]

/-- Witness for C5: `LaunchUrl ""` and `LaunchUrl "ftp://x"` are rejected
with no invocation; `LaunchUrl "https://example.com"` is dispatched to the
configured browser, under a concrete always-succeeding command oracle. -/
theorem C5_launch_url_witness :
    (handle_ipc_connection 20 (.ok (.LaunchUrl "")) VacuumState.default Config.default
        (fun _ => .ok "") "user"
      = (.reply (.Error "URL cannot be empty"), [])) ∧
    (handle_ipc_connection 20 (.ok (.LaunchUrl "ftp://x")) VacuumState.default Config.default
        (fun _ => .ok "") "user"
      = (.reply (.Error "URL must start with http:// or https://"), [])) ∧
    (handle_ipc_connection 20 (.ok (.LaunchUrl "https://example.com")) VacuumState.default
        Config.default (fun _ => .ok "") "user"
      = (.reply .Success, [{ cmd := "firefox", args := ["https://example.com"] }])) :=
  ⟨C5_launch_url.2.2.1 "" "URL cannot be empty" 20 VacuumState.default Config.default
      (fun _ => .ok "") "user" (by norm_num) (by norm_num) rfl,
   C5_launch_url.2.2.1 "ftp://x" "URL must start with http:// or https://" 20
      VacuumState.default Config.default (fun _ => .ok "") "user"
      (by norm_num) (by norm_num) rfl,
   C5_launch_url.2.2.2.2.1 "https://example.com" 20 VacuumState.default Config.default
      (fun _ => .ok "") "user" "" (by norm_num) (by norm_num) (Or.inr rfl) rfl⟩

/-- **C6** (single-instance startup): if the socket path exists and a
connection to it succeeds, startup fails with "Daemon already running"
having performed no removal and no bind; if the path exists but the
connection fails, the stale socket file is removed before the bind; if the
path does not exist the daemon binds directly; and the daemon serves only
after a successful bind. -/
theorem C6_startup_guard :
    (∀ rm bd, daemon_startup true true rm bd
        = (.error "Daemon already running", [.connectAttempt])) ∧
    (daemon_startup true false (.ok ()) (.ok ())
        = (.ok (), [.connectAttempt, .removeFile, .bindAttempt, .serve])) ∧
    (∀ e, daemon_startup true false (.ok ()) (.error e)
        = (.error ("Failed to bind Unix socket: " ++ e),
           [.connectAttempt, .removeFile, .bindAttempt])) ∧
    (∀ ck rm, daemon_startup false ck rm (.ok ()) = (.ok (), [.bindAttempt, .serve])) ∧
    (∀ ck rm e, daemon_startup false ck rm (.error e)
        = (.error ("Failed to bind Unix socket: " ++ e), [.bindAttempt])) ∧
    (∀ se ck rm bd, SockOp.serve ∈ (daemon_startup se ck rm bd).2 → bd = .ok ()) := by
  refine ⟨fun rm bd => rfl, rfl, fun e => rfl, fun ck rm => rfl, fun ck rm e => rfl, ?_⟩
  intro se ck rm bd h
  cases se <;> cases ck <;> rcases rm with e1 | u1 <;> rcases bd with e2 | u2 <;>
    simp_all [daemon_startup]

/-- Witness for C6: serving on a fresh path with a successful bind indeed
implies the bind succeeded. -/
theorem C6_startup_guard_witness :
    Except.ok () = (Except.ok () : Except String Unit) :=
  C6_startup_guard.2.2.2.2.2 false false (.ok ()) (.ok ()) (by decide)

/-- **C3** (traffic deltas): the traffic collector returns rate `0.0/0.0` on
the first observation of an interface (no baseline yet); on a later
observation of a matching statistics line it returns the byte-counter deltas
divided by 1024 and stores the new counters in the per-collector baseline
map; the rates are never negative — a decreased counter clamps to zero via
the saturating subtraction; and a successful `/proc/net/dev` read feeds the
scan verbatim. -/
theorem C3_traffic_rates :
    (∀ prev i content, collect_network_traffic prev i (some content)
        = .ok (scan_traffic_lines prev i (split_lines content))) ∧
    (∀ prev i lines, lookupStat prev i = none →
      (scan_traffic_lines prev i lines).1.rx_kbps = 0 ∧
      (scan_traffic_lines prev i lines).1.tx_kbps = 0) ∧
    (∀ prev i prx ptx line rest, lookupStat prev i = some (prx, ptx) →
      starts_with (str_trim line) (i ++ ":") = true →
      (splitWhitespace line).length ≥ 10 →
      scan_traffic_lines prev i (line :: rest) =
        ({ interface := i
           rx_kbps := ((((parse_u64 ((splitWhitespace line).getD 1 "")).getD 0) - prx : Nat) : ℚ) / 1024
           tx_kbps := ((((parse_u64 ((splitWhitespace line).getD 9 "")).getD 0) - ptx : Nat) : ℚ) / 1024 },
         insertStat prev i
           ((parse_u64 ((splitWhitespace line).getD 1 "")).getD 0,
            (parse_u64 ((splitWhitespace line).getD 9 "")).getD 0))) ∧
    (∀ prev i lines,
      0 ≤ (scan_traffic_lines prev i lines).1.rx_kbps ∧
      0 ≤ (scan_traffic_lines prev i lines).1.tx_kbps) ∧
    (∀ prev i prx ptx line rest, lookupStat prev i = some (prx, ptx) →
      starts_with (str_trim line) (i ++ ":") = true →
      (splitWhitespace line).length ≥ 10 →
      (parse_u64 ((splitWhitespace line).getD 1 "")).getD 0 ≤ prx →
      (scan_traffic_lines prev i (line :: rest)).1.rx_kbps = 0) := by
  refine ⟨fun prev i content => rfl,
    fun prev i lines h => scan_traffic_first_obs prev i h lines,
    scan_traffic_later_obs, scan_traffic_nonneg, ?_⟩
  intro prev i prx ptx line rest h hm hp hw
  rw [scan_traffic_later_obs prev i prx ptx line rest h hm hp]
  show ((((parse_u64 ((splitWhitespace line).getD 1 "")).getD 0) - prx : Nat) : ℚ) / 1024 = 0
  rw [Nat.sub_eq_zero_of_le hw]
  norm_num

/-- Witness for C3 at concrete inputs: on interface `eth0`, a first
observation (empty baseline map) reports zero rates; with baseline
`(1000, 2000)` the same statistics line reports `(3048-1000)/1024 = 2` kbps
and a wrapped-around counter (baseline `5000`) clamps to zero. -/
theorem C3_traffic_rates_witness :
    ((scan_traffic_lines [] "eth0"
        (split_lines "eth0: 3048 1 1 1 1 1 1 1 4048")).1.rx_kbps = 0) ∧
    ((scan_traffic_lines [("eth0", (1000, 2000))] "eth0"
        ["eth0: 3048 1 1 1 1 1 1 1 4048"]).1.rx_kbps = 2) ∧
    ((scan_traffic_lines [("eth0", (5000, 6000))] "eth0"
        ["eth0: 3048 1 1 1 1 1 1 1 4048"]).1.rx_kbps = 0) := by
  refine ⟨(C3_traffic_rates.2.1 [] "eth0"
      (split_lines "eth0: 3048 1 1 1 1 1 1 1 4048") rfl).1, ?_, ?_⟩
  · rw [C3_traffic_rates.2.2.1 [("eth0", (1000, 2000))] "eth0" 1000 2000
      "eth0: 3048 1 1 1 1 1 1 1 4048" [] rfl rfl (by decide)]
    have hv : (parse_u64
        ((splitWhitespace "eth0: 3048 1 1 1 1 1 1 1 4048").getD 1 "")).getD 0 = 3048 := by
      decide
    show ((((parse_u64
        ((splitWhitespace "eth0: 3048 1 1 1 1 1 1 1 4048").getD 1 "")).getD 0) - 1000 : Nat) : ℚ)
        / 1024 = 2
    rw [hv]
    norm_num
  · exact C3_traffic_rates.2.2.2.2 [("eth0", (5000, 6000))] "eth0" 5000 6000
      "eth0: 3048 1 1 1 1 1 1 1 4048" [] rfl rfl (by decide) (by decide)

/-- Counterexample for C9 as stated: on a successful response (HTTP 200)
whose decoded body's first weather entry has an empty icon string, the
program does not return `Ok` — `map_weather_icon`'s byte slice
`[..len()-1]` panics on the underflowing length — so `fetch_weather` with an
API key completes with no value at this input. -/
theorem C9_weather_total_counterexample :
    fetch_weather (some "key") Config.default
      (.response 200 (.ok
        { main := { temp := 20, feels_like := 20, humidity := 50 }
          weather := [{ id := 800, main := "Clear", description := "clear sky", icon := "" }]
          name := "Seattle"
          sys := { country := "US" } })) = none ∧
    ¬∃ w, fetch_weather (some "key") Config.default
      (.response 200 (.ok
        { main := { temp := 20, feels_like := 20, humidity := 50 }
          weather := [{ id := 800, main := "Clear", description := "clear sky", icon := "" }]
          name := "Seattle"
          sys := { country := "US" } })) = some (.ok w) := by
  refine ⟨rfl, ?_⟩
  rintro ⟨w, hw⟩
  exact Option.noConfusion hw

/-- **C9** (amended): `fetch_weather` never returns an `Err`: for every
configuration and fetch outcome it either completes with `Ok` — no API key
yields the static fallback, and every failing fetch path (send error, any
non-success HTTP status, unparsable body, empty weather list) yields a
fallback whose `temperature_c` is 20 and whose condition text reports
unavailability — or, only on a successful response whose first weather
entry carries an icon on which the `[..len()-1]` byte slice panics, it does
not return at all.  The weather loop's collector-`Err` branch is therefore
unreachable, and whenever a fetch error completes it overwrites the Store's
weather field with the fallback. -/
theorem C9_weather_no_err :
    (∀ k config outcome, fetch_weather k config outcome = none ∨
      ∃ w, fetch_weather k config outcome = some (.ok w)) ∧
    (∀ config outcome,
      fetch_weather none config outcome = some (.ok (get_fallback_weather config))) ∧
    (∀ config, (get_fallback_weather config).temperature_c = 20 ∧
      (get_fallback_weather config).condition = "Weather data unavailable") ∧
    (∀ config reason, (fallback_weather config reason).temperature_c = 20 ∧
      (fallback_weather config reason).condition = "Weather unavailable: " ++ reason) ∧
    (∀ config msg, fetch_openweather config (.sendError msg)
      = some (.ok (fallback_weather config "Network error"))) ∧
    (∀ config status body, status < 200 ∨ 299 < status →
      ∃ reason, fetch_openweather config (.response status body)
        = some (.ok (fallback_weather config reason))) ∧
    (∀ config status e, 200 ≤ status → status ≤ 299 →
      fetch_openweather config (.response status (.error e))
        = some (.ok (fallback_weather config "Invalid response"))) ∧
    (∀ config status data, 200 ≤ status → status ≤ 299 → data.weather = [] →
      fetch_openweather config (.response status (.ok data))
        = some (.ok (fallback_weather config "No weather data"))) ∧
    (∀ s w, (weatherTick s (.ok w)).weather_info = w) := by
  have hfail : ∀ config status body, ¬(200 ≤ status ∧ status ≤ 299) →
      ∃ reason, fetch_openweather config (.response status body)
        = some (.ok (fallback_weather config reason)) := by
    intro config status body hns
    simp only [fetch_openweather]
    rw [if_pos hns]
    split
    · exact ⟨"Invalid API key", rfl⟩
    split
    · exact ⟨"API access forbidden", rfl⟩
    split
    · exact ⟨"Rate limit exceeded", rfl⟩
    split
    · exact ⟨"Location not found", rfl⟩
    split
    · exact ⟨"Service unavailable", rfl⟩
    · exact ⟨"API error", rfl⟩
  have hok : ∀ config outcome, fetch_openweather config outcome = none ∨
      ∃ w, fetch_openweather config outcome = some (.ok w) := by
    intro config outcome
    cases outcome with
    | sendError msg => exact Or.inr ⟨_, rfl⟩
    | response status body =>
      by_cases hs : 200 ≤ status ∧ status ≤ 299
      · cases body with
        | error e =>
          simp only [fetch_openweather]
          rw [if_neg (by simpa using hs)]
          exact Or.inr ⟨_, rfl⟩
        | ok data =>
          rcases hd : data.weather.head? with _ | pw
          · simp only [fetch_openweather]
            rw [if_neg (by simpa using hs)]
            simp only [hd]
            exact Or.inr ⟨_, rfl⟩
          · rcases hmi : map_weather_icon pw.icon with _ | icon_name
            · simp only [fetch_openweather]
              rw [if_neg (by simpa using hs)]
              simp [hd, hmi]
            · simp only [fetch_openweather]
              rw [if_neg (by simpa using hs)]
              simp only [hd, hmi]
              exact Or.inr ⟨_, rfl⟩
      · obtain ⟨reason, hr⟩ := hfail config status body hs
        exact Or.inr ⟨_, hr⟩
  refine ⟨?_, fun config outcome => rfl, fun config => ⟨rfl, rfl⟩,
    fun config reason => ⟨rfl, rfl⟩, fun config msg => rfl, ?_, ?_, ?_,
    fun s w => rfl⟩
  · intro k config outcome
    cases k with
    | none => exact Or.inr ⟨_, rfl⟩
    | some key => exact hok config outcome
  · intro config status body h
    exact hfail config status body (by omega)
  · intro config status e h1 h2
    simp only [fetch_openweather]
    rw [if_neg (by omega)]
  · intro config status data h1 h2 hw
    simp only [fetch_openweather]
    rw [if_neg (by omega)]
    simp [hw]

/-- Witness for the amended C9: a server error (HTTP 500) completes with an
`Ok` fallback, an unparsable body on HTTP 200 completes with the
"Invalid response" fallback, and a completed `Ok` overwrites the weather
field of a concrete Store. -/
theorem C9_weather_no_err_witness :
    (∃ reason, fetch_openweather Config.default (.response 500 (.error "boom"))
      = some (.ok (fallback_weather Config.default reason))) ∧
    (fetch_openweather Config.default (.response 200 (.error "boom"))
      = some (.ok (fallback_weather Config.default "Invalid response"))) ∧
    (weatherTick VacuumState.default
        (.ok (get_fallback_weather Config.default))).weather_info
      = get_fallback_weather Config.default :=
  ⟨C9_weather_no_err.2.2.2.2.2.1 Config.default 500 (.error "boom") (Or.inr (by norm_num)),
   C9_weather_no_err.2.2.2.2.2.2.1 Config.default 200 "boom" (by norm_num) (by norm_num),
   C9_weather_no_err.2.2.2.2.2.2.2.2 VacuumState.default (get_fallback_weather Config.default)⟩

end Vacuum
